import Mathlib

/-!
Verification development for the hummingbot market-connectivity layer.

Shallow embedding of:
* `hummingbot/connector/exchange/wazirx/wazirx_order_book.py`
  (`WazirxOrderBook` message translation classmethods),
* `hummingbot/client/config/config_methods.py`
  (`new_fee_config_var`, `using_exchange`),
* the BitMart user-stream data source lifecycle, reconstructed from the
  specification and from the behaviour its unit tests
  (`test/hummingbot/connector/exchange/bitmart/test_bitmart_api_user_stream_data_source.py`)
  assert, since the data source module itself is not among the sources.

Python dictionaries are embedded as insertion-ordered association lists
(`PyDict`), mutation of a caller-supplied dict is made explicit by returning
the post-call state of that dict alongside the function's result, and
exceptions are embedded as explicit error results.
-/

/-- A Python value as it occurs in the translated exchange frames: a string,
a (exact) number standing for a Python int/float, or `None`. -/
inductive PyVal where
  | pstr : String → PyVal
  | pnum : Rat → PyVal
  | pnone : PyVal
deriving DecidableEq, Repr

/-- A Python dict with string keys, as an insertion-ordered association list
with no duplicate keys introduced by `dictSet`. -/
abbrev PyDict : Type := List (String × PyVal)

/-- `k in d` for a Python dict. -/
def dictHasKey (d : PyDict) (k : String) : Bool :=
  d.any (fun p => p.1 = k)

/-- `d[k] = v` for a Python dict: overwrite in place when the key exists
(keeping insertion order), append otherwise. -/
def dictSet (d : PyDict) (k : String) (v : PyVal) : PyDict :=
  if dictHasKey d k then d.map (fun p => if p.1 = k then (k, v) else p)
  else d ++ [(k, v)]

/-- `d[k]` lookup: `some` of the stored value, `none` when the key is absent
(the `KeyError` case for subscription, the `None` case for `.get`). -/
def dictGet (d : PyDict) (k : String) : Option PyVal :=
  (d.find? (fun p => p.1 = k)).map (fun p => p.2)

/-- `d.get(k)`: the stored value, or Python `None` when the key is absent. -/
def pyGet (d : PyDict) (k : String) : PyVal :=
  (dictGet d k).getD PyVal.pnone

/-- `d.update(m)`: set every key/value pair of `m` into `d`, left to right. -/
def dictUpdate (d m : PyDict) : PyDict :=
  m.foldl (fun acc p => dictSet acc p.1 p.2) d

/-- Python truthiness of an `Optional[Dict]` argument: `None` and the empty
dict are falsy, every non-empty dict is truthy. -/
def pyTruthy : Option PyDict → Bool
  | none => false
  | some d => !d.isEmpty

/-- `timestamp` used as a dict value: Python `None` becomes `PyVal.pnone`. -/
def optRatToVal : Option Rat → PyVal
  | none => PyVal.pnone
  | some r => PyVal.pnum r

/-- `OrderBookMessageType` enum from
`hummingbot.core.data_type.order_book_message`, restricted to the members the
Wazirx connector constructs. -/
inductive OrderBookMessageType where
  | SNAPSHOT
  | DIFF
  | TRADE
deriving DecidableEq, Repr

/-- A `WazirxOrderBookMessage`: the message type tag, the content dict and the
(optional) timestamp handed to the constructor. -/
structure WazirxOrderBookMessage where
  message_type : OrderBookMessageType
  content : PyDict
  timestamp : Option Rat
deriving DecidableEq, Repr

/-- `TradeType` enum values. Modelled from the spec: the enum lives in
`hummingbot.core.event.events`, which is not among the sources; the connector
only uses `TradeType.BUY.value = 1` and `TradeType.SELL.value = 2` converted
to floats. -/
def TradeTypeBUYvalue : Rat := 1

/-- `TradeType.SELL.value`. Modelled from the spec: see `TradeTypeBUYvalue`. -/
def TradeTypeSELLvalue : Rat := 2

/-- `EXCHANGE_NAME` from `wazirx_constants`. Modelled from the spec: the
constants module is not among the sources; the exchange is WazirX. Only the
suffix of the error message below depends on the source file itself. -/
def EXCHANGE_NAME : String := "wazirx"

/-- Result of a Python call that may raise `NotImplementedError`: either a
normal return value or the raised error's message. -/
inductive PyOutcome (α : Type) where
  | ok : α → PyOutcome α
  | notImplementedError : String → PyOutcome α
deriving DecidableEq, Repr

/-- The aggregated order book type returned by `OrderBook` factory methods.
The Wazirx connector never constructs one; only the type is needed. -/
structure OrderBook where
  bids : List (Rat × Rat)
  asks : List (Rat × Rat)
deriving DecidableEq, Repr

namespace WazirxOrderBook

/-- The module-level `_logger` state together with `logging.getLogger`:
a logger is identified by its registered name, and the module keeps one
`Option`-valued global slot. This is the `__name__` of the module. -/
def wazirxModuleName : String := "hummingbot.connector.exchange.wazirx.wazirx_order_book"

/-- `logging.getLogger(name)` modelled by the registry key it returns the
logger for: two calls with the same name yield the same logger object. -/
def getLogger (name : String) : String := name

/-- `WazirxOrderBook.logger()`: reads the module-level `_logger` slot, creates
the logger on first use, and returns the logger together with the slot's
post-call state. -/
def logger (s : Option String) : String × Option String :=
  match s with
  | none => (getLogger wazirxModuleName, some (getLogger wazirxModuleName))
  | some l => (l, some l)

/-- The `if metadata: msg.update(metadata)` step shared by the three
translation classmethods: the state of the caller's `msg` dict right after
it. -/
def mergedMsg (msg : PyDict) (metadata : Option PyDict) : PyDict :=
  if pyTruthy metadata then dictUpdate msg (metadata.getD []) else msg

/-- `WazirxOrderBook.snapshot_message_from_exchange(msg, timestamp, metadata)`.
The first component is the post-call state of the caller's `msg` dict
(`msg.update(metadata)` mutates it in place when `metadata` is truthy). -/
def snapshot_message_from_exchange (msg : PyDict) (timestamp : Rat)
    (metadata : Option PyDict) : PyDict × WazirxOrderBookMessage :=
  let msg1 := mergedMsg msg metadata
  (msg1, { message_type := OrderBookMessageType.SNAPSHOT,
           content := msg1,
           timestamp := some timestamp })

/-- `WazirxOrderBook.diff_message_from_exchange(msg, timestamp, metadata)`.
The first component is the post-call state of the caller's `msg` dict. -/
def diff_message_from_exchange (msg : PyDict) (timestamp : Option Rat)
    (metadata : Option PyDict) : PyDict × WazirxOrderBookMessage :=
  let msg1 := mergedMsg msg metadata
  (msg1, { message_type := OrderBookMessageType.DIFF,
           content := msg1,
           timestamp := timestamp })

/-- The dict literal `trade_message_from_exchange` merges into `msg`: the five
derived keys, in the source's order. -/
def tradeDerivedFields (sVal : PyVal) (msg1 : PyDict) (timestamp : Option Rat) : PyDict :=
  [("trade_type", if sVal = PyVal.pstr "sell" then PyVal.pnum TradeTypeSELLvalue
                  else PyVal.pnum TradeTypeBUYvalue),
   ("trade_id", pyGet msg1 "t"),
   ("update_id", optRatToVal timestamp),
   ("price", pyGet msg1 "p"),
   ("amount", pyGet msg1 "q")]

/-- `WazirxOrderBook.trade_message_from_exchange(msg, timestamp, metadata)`.
The first component is the post-call state of the caller's `msg` dict; the
second is `none` when the subscription `msg["S"]` raises `KeyError` (that read
happens while building the dict literal, after the metadata merge but before
the second in-place update). -/
def trade_message_from_exchange (msg : PyDict) (timestamp : Option Rat)
    (metadata : Option PyDict) : PyDict × Option WazirxOrderBookMessage :=
  let msg1 := mergedMsg msg metadata
  match dictGet msg1 "S" with
  | none => (msg1, none)
  | some sVal =>
    let msg2 := dictUpdate msg1 (tradeDerivedFields sVal msg1 timestamp)
    (msg2, some { message_type := OrderBookMessageType.TRADE,
                  content := msg2,
                  timestamp := timestamp })

/-- The message of the `NotImplementedError` raised by both unsupported
factory methods. -/
def retainErrMsg : String :=
  EXCHANGE_NAME ++ " order book needs to retain individual order data."

/-- `WazirxOrderBook.from_snapshot(snapshot)`: unconditionally raises. -/
def from_snapshot (snapshot : WazirxOrderBookMessage) : PyOutcome OrderBook :=
  PyOutcome.notImplementedError retainErrMsg

/-- `WazirxOrderBook.restore_from_snapshot_and_diffs(snapshot, diffs)`:
unconditionally raises. -/
def restore_from_snapshot_and_diffs (snapshot : WazirxOrderBookMessage)
    (diffs : List WazirxOrderBookMessage) : PyOutcome OrderBook :=
  PyOutcome.notImplementedError retainErrMsg

end WazirxOrderBook

/-- A `ConfigVar` as constructed by `new_fee_config_var`. Modelled from the
spec: the `ConfigVar` class (`hummingbot.client.config.config_var`) is not
among the sources; it stores the constructor arguments used here as
attributes. -/
structure ConfigVar where
  key : String
  prompt : Option String
  required_if : Unit → Bool
  type_str : String

/-- `new_fee_config_var(key)` from `config_methods.py`. -/
def new_fee_config_var (key : String) : ConfigVar :=
  { key := key,
    prompt := none,
    required_if := fun _ => false,
    type_str := "decimal" }

/-- `using_exchange(exchange)` from `config_methods.py`: returns the closure
`lambda: exchange in required_exchanges`. The global `required_exchanges`
collection is read when the closure is invoked, so the embedding passes the
invocation-time state of that collection to the returned function. -/
def using_exchange (exchange : String) : List String → Bool :=
  fun required_exchanges => required_exchanges.contains exchange

namespace BitmartUserStream

/-!
Modelled from the spec: `bitmart_api_user_stream_data_source.py` itself is
not among the sources; its `listen_for_user_stream` lifecycle is
reconstructed from spec sections 4.2, 4.3 and 4.5 together with the behaviour
its unit tests assert (the log lines, the frames sent, the CancelledError
propagation, and the reconnect path an invalid frame or a login error object
leads to). One connection attempt is embedded as a function of a script that
fixes what the environment does at each suspension point.
-/

/-- A raw frame received on the live connection: either one the translation
function decodes, or a malformed (undecodable) one. -/
inductive Frame where
  | valid : String → Frame
  | invalid : String → Frame
deriving DecidableEq, Repr

/-- What one read-loop iteration observes: a frame within the message
timeout; a message timeout whose ping probe is answered within the ping
timeout; a message timeout whose ping probe is not answered in time; or the
server closing the connection. -/
inductive RecvEvent where
  | frame : Frame → RecvEvent
  | timeoutPongOk : RecvEvent
  | timeoutPingTimeout : RecvEvent
  | connectionClosed : RecvEvent
deriving DecidableEq, Repr

/-- Outcome of a suspension point where the session opens the transport or
sends a payload: completes, is cancelled by the external stop signal, or
fails with an ordinary error. -/
inductive StepResult where
  | ok : StepResult
  | cancelled : StepResult
  | failed : StepResult
deriving DecidableEq, Repr

/-- The exchange's reply to the login request: a positive acknowledgement, an
explicit error object (code and message), or cancellation while waiting. -/
inductive AuthResponse where
  | loginOk : AuthResponse
  | errorObject : String → String → AuthResponse
  | cancelled : AuthResponse
deriving DecidableEq, Repr

/-- A script fixing the environment's behaviour at every suspension point of
one connection attempt, in order: transport open, auth-payload send, login
reply, subscribe-payload send, then the read loop's events. -/
structure AttemptScript where
  connect : StepResult
  authSend : StepResult
  authResponse : AuthResponse
  subscribeSend : StepResult
  recvs : List RecvEvent
deriving DecidableEq, Repr

/-- How the read loop ended: still reading on the same connection when the
script ran out; a ping timeout; the server closing; or a raised decode
failure on a malformed frame. -/
inductive LoopExit where
  | running : LoopExit
  | pingTimeout : LoopExit
  | closedByServer : LoopExit
  | parseError : LoopExit
deriving DecidableEq, Repr

/-- Log lines, as the unit tests assert them. -/
def authStartLog : String := "Authenticating to User Stream..."

/-- Log line on a positive login acknowledgement. -/
def authOkLog : String := "Successfully authenticated to User Stream."

/-- Log line once channel subscription succeeds. -/
def subOkLog : String := "Successfully subscribed to all Private channels."

/-- Log line for an explicit login error object carrying `errorMessage` m. -/
def loginErrorLog (m : String) : String :=
  "WebSocket login errored with message: " ++ m

/-- Log line when authentication raises. -/
def authErrorLog : String := "Error occurred when authenticating to user stream."

/-- Log line when channel subscription raises. -/
def subErrorLog : String := "Error occured during subscribing to Bitmart private channels."

/-- Log line when the transport cannot be opened. -/
def connectErrorLog : String := "Unexpected error occured with BitMart WebSocket Connection"

/-- Log line when a received frame cannot be decoded. -/
def parseErrorLog : String := "Unexpected error when parsing BitMart user_stream message. "

/-- Log line of the backoff-and-retry path. -/
def retryLog : String :=
  "Unexpected error with BitMart WebSocket connection. Retrying after 30 seconds..."

/-- Warning logged when the ping probe is not answered within the ping
timeout. -/
def pingTimeoutLog : String := "WebSocket ping timed out. Going to reconnect..."

/-- The frame carrying the signed login request. -/
def authPayloadFrame : String := "authPayload"

/-- The frame carrying the private-channel subscribe request. -/
def subscribePayloadFrame : String := "subscribePayload"

/-- Result of running the read loop over a script: the payloads delivered to
the output queue, the number of ping probes sent, the log lines, whether the
connection was closed, and how the loop ended. -/
structure LoopResult where
  outputs : List String
  pings : Nat
  logs : List String
  closed : Bool
  exit : LoopExit
deriving DecidableEq, Repr

/-- The read loop over a live connection. A decoded frame is delivered to the
output queue; a message timeout sends a ping and continues when the pong
arrives in time; an unanswered ping logs the ping-timeout warning and closes
the connection (reconnect follows); a malformed frame logs the parse failure
and raises, which closes the connection and reaches the backoff-retry
handler. -/
def innerLoop : List RecvEvent → LoopResult
  | [] => { outputs := [], pings := 0, logs := [], closed := false, exit := LoopExit.running }
  | RecvEvent.frame (Frame.valid p) :: rest =>
    let r := innerLoop rest
    { r with outputs := p :: r.outputs }
  | RecvEvent.frame (Frame.invalid _) :: _ =>
    { outputs := [], pings := 0, logs := [parseErrorLog], closed := true,
      exit := LoopExit.parseError }
  | RecvEvent.timeoutPongOk :: rest =>
    let r := innerLoop rest
    { r with pings := r.pings + 1 }
  | RecvEvent.timeoutPingTimeout :: _ =>
    { outputs := [], pings := 1, logs := [pingTimeoutLog], closed := true,
      exit := LoopExit.pingTimeout }
  | RecvEvent.connectionClosed :: _ =>
    { outputs := [], pings := 0, logs := [], closed := true,
      exit := LoopExit.closedByServer }

/-- The distinct overall outcomes of one connection attempt: cancellation
propagated to the caller; an ordinary failure entering the
log-close-backoff-retry path; a clean loop exit reconnecting without the
backoff; or still live when the script ran out. -/
inductive AttemptOutcome where
  | cancelled : AttemptOutcome
  | backoffRetry : AttemptOutcome
  | reconnect : AttemptOutcome
  | live : AttemptOutcome
deriving DecidableEq, Repr

/-- Result of one connection attempt: the frames sent on the wire, the
delivered payloads, pings sent, log lines, and the outcome. -/
structure AttemptResult where
  sentFrames : List String
  outputs : List String
  pings : Nat
  logs : List String
  outcome : AttemptOutcome
deriving DecidableEq, Repr

/-- One pass of `listen_for_user_stream`: connect, authenticate, subscribe,
then the read loop, with CancelledError re-raised at every suspension point
and every ordinary failure routed into the backoff-retry handler. -/
def runAttempt (s : AttemptScript) : AttemptResult :=
  match s.connect with
  | StepResult.cancelled =>
    { sentFrames := [], outputs := [], pings := 0, logs := [],
      outcome := AttemptOutcome.cancelled }
  | StepResult.failed =>
    { sentFrames := [], outputs := [], pings := 0,
      logs := [connectErrorLog, retryLog], outcome := AttemptOutcome.backoffRetry }
  | StepResult.ok =>
    match s.authSend with
    | StepResult.cancelled =>
      { sentFrames := [], outputs := [], pings := 0, logs := [authStartLog],
        outcome := AttemptOutcome.cancelled }
    | StepResult.failed =>
      { sentFrames := [], outputs := [], pings := 0,
        logs := [authStartLog, authErrorLog, retryLog],
        outcome := AttemptOutcome.backoffRetry }
    | StepResult.ok =>
      match s.authResponse with
      | AuthResponse.cancelled =>
        { sentFrames := [authPayloadFrame], outputs := [], pings := 0,
          logs := [authStartLog], outcome := AttemptOutcome.cancelled }
      | AuthResponse.errorObject _ m =>
        { sentFrames := [authPayloadFrame], outputs := [], pings := 0,
          logs := [authStartLog, loginErrorLog m, authErrorLog, retryLog],
          outcome := AttemptOutcome.backoffRetry }
      | AuthResponse.loginOk =>
        match s.subscribeSend with
        | StepResult.cancelled =>
          { sentFrames := [authPayloadFrame], outputs := [], pings := 0,
            logs := [authStartLog, authOkLog], outcome := AttemptOutcome.cancelled }
        | StepResult.failed =>
          { sentFrames := [authPayloadFrame], outputs := [], pings := 0,
            logs := [authStartLog, authOkLog, subErrorLog, retryLog],
            outcome := AttemptOutcome.backoffRetry }
        | StepResult.ok =>
          let r := innerLoop s.recvs
          let base := [authStartLog, authOkLog, subOkLog]
          match r.exit with
          | LoopExit.running =>
            { sentFrames := [authPayloadFrame, subscribePayloadFrame],
              outputs := r.outputs, pings := r.pings, logs := base ++ r.logs,
              outcome := AttemptOutcome.live }
          | LoopExit.parseError =>
            { sentFrames := [authPayloadFrame, subscribePayloadFrame],
              outputs := r.outputs, pings := r.pings,
              logs := base ++ r.logs ++ [retryLog],
              outcome := AttemptOutcome.backoffRetry }
          | LoopExit.pingTimeout =>
            { sentFrames := [authPayloadFrame, subscribePayloadFrame],
              outputs := r.outputs, pings := r.pings, logs := base ++ r.logs,
              outcome := AttemptOutcome.reconnect }
          | LoopExit.closedByServer =>
            { sentFrames := [authPayloadFrame, subscribePayloadFrame],
              outputs := r.outputs, pings := r.pings, logs := base ++ r.logs,
              outcome := AttemptOutcome.reconnect }

/-- Whether a read-loop event is a message timeout answered by a pong — the
events on which a ping probe is sent and the loop continues. -/
def isPong : RecvEvent → Bool
  | RecvEvent.timeoutPongOk => true
  | _ => false

/-- An event the read loop survives without ending: a decodable frame, or a
message timeout whose ping is answered. -/
def heartbeatBenign : RecvEvent → Bool
  | RecvEvent.timeoutPongOk => true
  | RecvEvent.frame (Frame.valid _) => true
  | _ => false

/-- Cancellation fires at the connection-open suspension point. -/
def cancelAtConnect (s : AttemptScript) : Prop :=
  s.connect = StepResult.cancelled

/-- Cancellation fires while sending the auth payload. -/
def cancelAtAuthSend (s : AttemptScript) : Prop :=
  s.connect = StepResult.ok ∧ s.authSend = StepResult.cancelled

/-- Cancellation fires while sending the subscribe payload. -/
def cancelAtSubscribeSend (s : AttemptScript) : Prop :=
  s.connect = StepResult.ok ∧ s.authSend = StepResult.ok ∧
    s.authResponse = AuthResponse.loginOk ∧ s.subscribeSend = StepResult.cancelled

end BitmartUserStream

/-! Helper lemmas about the dict embedding. -/

theorem dictGet_nil (k : String) : dictGet [] k = none := rfl

theorem dictGet_cons (hd : String × PyVal) (tl : PyDict) (k : String) :
    dictGet (hd :: tl) k = if hd.1 = k then some hd.2 else dictGet tl k := by
  by_cases h : hd.1 = k <;> simp [dictGet, List.find?, h]

theorem dictGet_map_setKey (d : PyDict) (k k' : String) (v : PyVal) (hk : k' ≠ k) :
    dictGet (d.map (fun p => if p.1 = k then (k, v) else p)) k' = dictGet d k' := by
  induction d with
  | nil => rfl
  | cons hd tl ih =>
    rw [List.map_cons]
    by_cases h1 : hd.1 = k
    · rw [if_pos h1, dictGet_cons, dictGet_cons,
        if_neg (show ¬ ((k, v).1 = k') from fun h => hk h.symm),
        if_neg (show ¬ (hd.1 = k') from fun h => hk (h1 ▸ h).symm)]
      exact ih
    · rw [if_neg h1, dictGet_cons, dictGet_cons]
      by_cases h2 : hd.1 = k'
      · rw [if_pos h2, if_pos h2]
      · rw [if_neg h2, if_neg h2]
        exact ih

theorem dictGet_append_single (d : PyDict) (k k' : String) (v : PyVal) (hk : k' ≠ k) :
    dictGet (d ++ [(k, v)]) k' = dictGet d k' := by
  induction d with
  | nil =>
    rw [List.nil_append, dictGet_cons,
      if_neg (show ¬ ((k, v).1 = k') from fun h => hk h.symm)]
  | cons hd tl ih =>
    rw [List.cons_append, dictGet_cons, dictGet_cons]
    by_cases h2 : hd.1 = k'
    · rw [if_pos h2, if_pos h2]
    · rw [if_neg h2, if_neg h2]
      exact ih

theorem dictGet_dictSet_ne (d : PyDict) (k k' : String) (v : PyVal) (hk : k' ≠ k) :
    dictGet (dictSet d k v) k' = dictGet d k' := by
  unfold dictSet
  split
  · exact dictGet_map_setKey d k k' v hk
  · exact dictGet_append_single d k k' v hk

theorem dictGet_isSome_of_hasKey (d : PyDict) (k : String) (h : dictHasKey d k = true) :
    ∃ v, dictGet d k = some v := by
  induction d with
  | nil => simp [dictHasKey] at h
  | cons hd tl ih =>
    rw [dictGet_cons]
    by_cases h1 : hd.1 = k
    · exact ⟨hd.2, by rw [if_pos h1]⟩
    · rw [if_neg h1]
      refine ih ?_
      simpa [dictHasKey, List.any_cons, h1] using h

theorem dictGet_eq_none_of_hasKey_false (d : PyDict) (k : String)
    (h : dictHasKey d k = false) : dictGet d k = none := by
  induction d with
  | nil => rfl
  | cons hd tl ih =>
    rw [dictGet_cons]
    have h1 : ¬ hd.1 = k := by
      intro hq
      simp [dictHasKey, List.any_cons, hq] at h
    rw [if_neg h1]
    refine ih ?_
    simpa [dictHasKey, List.any_cons, h1] using h

theorem dictGet_dictUpdate_notkey (d m : PyDict) (k : String)
    (hm : ∀ p ∈ m, p.1 ≠ k) :
    dictGet (dictUpdate d m) k = dictGet d k := by
  induction m generalizing d with
  | nil => rfl
  | cons hd tl ih =>
    have hstep : dictUpdate d (hd :: tl) = dictUpdate (dictSet d hd.1 hd.2) tl := rfl
    rw [hstep, ih (dictSet d hd.1 hd.2) (fun p hp => hm p (List.mem_cons_of_mem _ hp)),
      dictGet_dictSet_ne d hd.1 k hd.2 (Ne.symm (hm hd (List.mem_cons_self _ _)))]

/-! Helper lemma about the read loop: a run of benign events (decoded frames
and answered pings) changes only the delivered outputs and the ping count. -/

theorem BitmartUserStream.innerLoop_benign_append
    (pre rest : List BitmartUserStream.RecvEvent)
    (h : ∀ e ∈ pre, BitmartUserStream.heartbeatBenign e = true) :
    (BitmartUserStream.innerLoop (pre ++ rest)).exit =
      (BitmartUserStream.innerLoop rest).exit ∧
    (BitmartUserStream.innerLoop (pre ++ rest)).closed =
      (BitmartUserStream.innerLoop rest).closed ∧
    (BitmartUserStream.innerLoop (pre ++ rest)).logs =
      (BitmartUserStream.innerLoop rest).logs ∧
    (BitmartUserStream.innerLoop (pre ++ rest)).pings =
      pre.countP BitmartUserStream.isPong + (BitmartUserStream.innerLoop rest).pings := by
  induction pre with
  | nil => simp
  | cons e pre ih =>
    have he : BitmartUserStream.heartbeatBenign e = true := h e (List.mem_cons_self _ _)
    obtain ⟨h1, h2, h3, h4⟩ := ih (fun x hx => h x (List.mem_cons_of_mem _ hx))
    cases e with
    | frame f =>
      cases f with
      | valid p =>
        simp [List.cons_append, BitmartUserStream.innerLoop, h1, h2, h3, h4,
          List.countP_cons, BitmartUserStream.isPong]
      | invalid raw => simp [BitmartUserStream.heartbeatBenign] at he
    | timeoutPongOk =>
      simp [List.cons_append, BitmartUserStream.innerLoop, h1, h2, h3, h4,
        List.countP_cons, BitmartUserStream.isPong]
      omega
    | timeoutPingTimeout => simp [BitmartUserStream.heartbeatBenign] at he
    | connectionClosed => simp [BitmartUserStream.heartbeatBenign] at he

/-- Claim C1: for every snapshot message and every (snapshot, diffs) pair,
`WazirxOrderBook.from_snapshot` and
`WazirxOrderBook.restore_from_snapshot_and_diffs` raise a
`NotImplementedError` whose message states the exchange needs to retain
individual order data, and never return an order book. -/
theorem WazirxOrderBook.c1_per_order_retention_gap_surfaced
    (snapshot : WazirxOrderBookMessage) (diffs : List WazirxOrderBookMessage) :
    WazirxOrderBook.from_snapshot snapshot =
      PyOutcome.notImplementedError WazirxOrderBook.retainErrMsg ∧
    WazirxOrderBook.restore_from_snapshot_and_diffs snapshot diffs =
      PyOutcome.notImplementedError WazirxOrderBook.retainErrMsg ∧
    WazirxOrderBook.retainErrMsg =
      EXCHANGE_NAME ++ " order book needs to retain individual order data." ∧
    (∀ ob : OrderBook, WazirxOrderBook.from_snapshot snapshot ≠ PyOutcome.ok ob) ∧
    (∀ ob : OrderBook,
      WazirxOrderBook.restore_from_snapshot_and_diffs snapshot diffs ≠ PyOutcome.ok ob) := by
  refine ⟨rfl, rfl, rfl, ?_, ?_⟩ <;>
    · intro ob h
      exact PyOutcome.noConfusion h

/-- Claim C8: `WazirxOrderBook.logger` is an idempotent singleton accessor
over the module-level `_logger` slot: the first call creates the logger, and
calling it again on the resulting state returns the same object and the same
state. -/
theorem WazirxOrderBook.c8_logger_idempotent_singleton (s : Option String) :
    WazirxOrderBook.logger (WazirxOrderBook.logger s).2 = WazirxOrderBook.logger s ∧
    WazirxOrderBook.logger none =
      (WazirxOrderBook.getLogger WazirxOrderBook.wazirxModuleName,
       some (WazirxOrderBook.getLogger WazirxOrderBook.wazirxModuleName)) ∧
    ∀ l : String, WazirxOrderBook.logger (some l) = (l, some l) := by
  refine ⟨?_, rfl, fun l => rfl⟩
  cases s <;> rfl

/-- Claim C9: for every key, `new_fee_config_var` returns a `ConfigVar` whose
`required_if` returns `False` on every call, whose `prompt` is `None`, and
whose `type_str` is `"decimal"`. -/
theorem c9_fee_config_var_never_required (key : String) :
    (∀ u : Unit, (new_fee_config_var key).required_if u = false) ∧
    (new_fee_config_var key).prompt = none ∧
    (new_fee_config_var key).type_str = "decimal" ∧
    (new_fee_config_var key).key = key :=
  ⟨fun _ => rfl, rfl, rfl, rfl⟩

/-- Claim C10: the predicate returned by `using_exchange` evaluates
membership in `required_exchanges` at invocation time: applied to the state
of the collection at the moment of the call, it returns `True` exactly when
the exchange is then a member, so later mutations of the collection are
reflected. -/
theorem c10_using_exchange_reads_state_at_invocation (exchange : String)
    (required_exchanges : List String) :
    (using_exchange exchange required_exchanges = true ↔
      exchange ∈ required_exchanges) ∧
    using_exchange exchange [] = false ∧
    using_exchange exchange (exchange :: required_exchanges) = true := by
  refine ⟨?_, rfl, ?_⟩
  · simp [using_exchange]
  · simp [using_exchange]

/-- Claim C3 counterexample: the translation functions are not pure in their
`msg` argument. With a non-empty metadata dict, `snapshot_message_from_exchange`
and `diff_message_from_exchange` mutate the caller's `msg` in place, and
`trade_message_from_exchange` mutates it even without metadata (it merges the
five derived fields into it). -/
theorem WazirxOrderBook.c3_counterexample_msg_mutated :
    (WazirxOrderBook.snapshot_message_from_exchange [("a", PyVal.pnum 1)] 0
        (some [("b", PyVal.pnum 2)])).1 ≠ [("a", PyVal.pnum 1)] ∧
    (WazirxOrderBook.diff_message_from_exchange [("a", PyVal.pnum 1)] none
        (some [("b", PyVal.pnum 2)])).1 ≠ [("a", PyVal.pnum 1)] ∧
    (WazirxOrderBook.trade_message_from_exchange [("S", PyVal.pstr "sell")] none none).1
        ≠ [("S", PyVal.pstr "sell")] := by
  refine ⟨?_, ?_, ?_⟩ <;> decide

/-- Claim C3 (amended): `snapshot_message_from_exchange` and
`diff_message_from_exchange` leave the caller's `msg` unchanged exactly when
`metadata` is falsy (`None` or empty); with non-empty metadata they merge it
into `msg` in place, and `trade_message_from_exchange` always mutates `msg`
by merging the derived trade fields. -/
theorem WazirxOrderBook.c3_msg_unchanged_without_metadata
    (msg : PyDict) (ts : Rat) (ots : Option Rat) (metadata : Option PyDict)
    (h : pyTruthy metadata = false) :
    (WazirxOrderBook.snapshot_message_from_exchange msg ts metadata).1 = msg ∧
    (WazirxOrderBook.diff_message_from_exchange msg ots metadata).1 = msg := by
  simp [WazirxOrderBook.snapshot_message_from_exchange,
    WazirxOrderBook.diff_message_from_exchange, WazirxOrderBook.mergedMsg, h]

/-- Witness for the amended claim C3 at a concrete input. -/
theorem WazirxOrderBook.c3_msg_unchanged_without_metadata_witness :
    pyTruthy none = false ∧
    ((WazirxOrderBook.snapshot_message_from_exchange [("a", PyVal.pnum 1)] 0 none).1
        = [("a", PyVal.pnum 1)] ∧
     (WazirxOrderBook.diff_message_from_exchange [("a", PyVal.pnum 1)] none none).1
        = [("a", PyVal.pnum 1)]) :=
  ⟨rfl, WazirxOrderBook.c3_msg_unchanged_without_metadata
    [("a", PyVal.pnum 1)] 0 none none rfl⟩

/-- Claim C7 counterexample: `trade_message_from_exchange` does not return a
TRADE message for every `msg`: on a msg without the "S" key the subscription
`msg["S"]` raises `KeyError` and no message is produced. -/
theorem WazirxOrderBook.c7_counterexample_trade_raises_keyerror :
    (WazirxOrderBook.trade_message_from_exchange [] none none).2 = none := rfl

/-- Claim C7 (amended): `snapshot_message_from_exchange` always returns a
SNAPSHOT-tagged message and `diff_message_from_exchange` a DIFF-tagged one,
each with the timestamp argument and content equal to `msg` merged with
`metadata` when metadata is given; `trade_message_from_exchange` returns a
TRADE-tagged message with those properties whenever the (merged) `msg`
contains the key "S", and raises `KeyError` otherwise. -/
theorem WazirxOrderBook.c7_tagged_variants (msg : PyDict) (ts : Rat)
    (ots : Option Rat) (metadata : Option PyDict) :
    ((WazirxOrderBook.snapshot_message_from_exchange msg ts metadata).2.message_type
        = OrderBookMessageType.SNAPSHOT ∧
     (WazirxOrderBook.snapshot_message_from_exchange msg ts metadata).2.timestamp
        = some ts ∧
     (WazirxOrderBook.snapshot_message_from_exchange msg ts metadata).2.content
        = WazirxOrderBook.mergedMsg msg metadata) ∧
    ((WazirxOrderBook.diff_message_from_exchange msg ots metadata).2.message_type
        = OrderBookMessageType.DIFF ∧
     (WazirxOrderBook.diff_message_from_exchange msg ots metadata).2.timestamp
        = ots ∧
     (WazirxOrderBook.diff_message_from_exchange msg ots metadata).2.content
        = WazirxOrderBook.mergedMsg msg metadata) ∧
    (dictHasKey (WazirxOrderBook.mergedMsg msg metadata) "S" = true →
      ∃ tm : WazirxOrderBookMessage,
        (WazirxOrderBook.trade_message_from_exchange msg ots metadata).2 = some tm ∧
        tm.message_type = OrderBookMessageType.TRADE ∧
        tm.timestamp = ots ∧
        (∀ k : String, k ∉ ["trade_type", "trade_id", "update_id", "price", "amount"] →
          dictGet tm.content k = dictGet (WazirxOrderBook.mergedMsg msg metadata) k)) ∧
    (dictHasKey (WazirxOrderBook.mergedMsg msg metadata) "S" = false →
      (WazirxOrderBook.trade_message_from_exchange msg ots metadata).2 = none) := by
  refine ⟨⟨rfl, rfl, rfl⟩, ⟨rfl, rfl, rfl⟩, ?_, ?_⟩
  case refine_2 =>
    intro h
    have hnone : dictGet (WazirxOrderBook.mergedMsg msg metadata) "S" = none :=
      dictGet_eq_none_of_hasKey_false _ _ h
    simp only [WazirxOrderBook.trade_message_from_exchange, hnone]
  intro h
  obtain ⟨sVal, hS⟩ := dictGet_isSome_of_hasKey _ _ h
  refine ⟨{ message_type := OrderBookMessageType.TRADE,
            content := dictUpdate (WazirxOrderBook.mergedMsg msg metadata)
              (WazirxOrderBook.tradeDerivedFields sVal
                (WazirxOrderBook.mergedMsg msg metadata) ots),
            timestamp := ots }, ?_, rfl, rfl, ?_⟩
  · simp only [WazirxOrderBook.trade_message_from_exchange, hS]
  · intro k hk
    apply dictGet_dictUpdate_notkey
    intro p hp
    simp only [List.mem_cons, List.not_mem_nil, or_false] at hk
    push_neg at hk
    obtain ⟨k1, k2, k3, k4, k5⟩ := hk
    simp only [WazirxOrderBook.tradeDerivedFields, List.mem_cons,
      List.not_mem_nil, or_false] at hp
    rcases hp with rfl | rfl | rfl | rfl | rfl
    · exact fun hq => k1 hq.symm
    · exact fun hq => k2 hq.symm
    · exact fun hq => k3 hq.symm
    · exact fun hq => k4 hq.symm
    · exact fun hq => k5 hq.symm

/-- Witness for the amended claim C7 at concrete inputs, exercising both the
TRADE branch (msg containing "S") and the KeyError branch (msg without
"S"). -/
theorem WazirxOrderBook.c7_tagged_variants_witness :
    ((WazirxOrderBook.snapshot_message_from_exchange [("S", PyVal.pstr "sell")] 0 none).2.message_type
        = OrderBookMessageType.SNAPSHOT ∧
     (WazirxOrderBook.snapshot_message_from_exchange [("S", PyVal.pstr "sell")] 0 none).2.timestamp
        = some 0 ∧
     (WazirxOrderBook.snapshot_message_from_exchange [("S", PyVal.pstr "sell")] 0 none).2.content
        = WazirxOrderBook.mergedMsg [("S", PyVal.pstr "sell")] none) ∧
    ((WazirxOrderBook.diff_message_from_exchange [] (some 5) none).2.message_type
        = OrderBookMessageType.DIFF ∧
     (WazirxOrderBook.diff_message_from_exchange [] (some 5) none).2.timestamp
        = some 5 ∧
     (WazirxOrderBook.diff_message_from_exchange [] (some 5) none).2.content
        = WazirxOrderBook.mergedMsg [] none) ∧
    (dictHasKey (WazirxOrderBook.mergedMsg [("S", PyVal.pstr "sell")] none) "S" = true ∧
     (∃ tm : WazirxOrderBookMessage,
       (WazirxOrderBook.trade_message_from_exchange [("S", PyVal.pstr "sell")] (some 5) none).2 = some tm ∧
       tm.message_type = OrderBookMessageType.TRADE ∧
       tm.timestamp = some 5 ∧
       (∀ k : String, k ∉ ["trade_type", "trade_id", "update_id", "price", "amount"] →
         dictGet tm.content k =
           dictGet (WazirxOrderBook.mergedMsg [("S", PyVal.pstr "sell")] none) k))) ∧
    (dictHasKey (WazirxOrderBook.mergedMsg [] none) "S" = false ∧
     (WazirxOrderBook.trade_message_from_exchange [] none none).2 = none) :=
  ⟨(WazirxOrderBook.c7_tagged_variants [("S", PyVal.pstr "sell")] 0 (some 5) none).1,
   (WazirxOrderBook.c7_tagged_variants [] 0 (some 5) none).2.1,
   ⟨rfl, (WazirxOrderBook.c7_tagged_variants [("S", PyVal.pstr "sell")] 0 (some 5) none).2.2.1 rfl⟩,
   ⟨rfl, (WazirxOrderBook.c7_tagged_variants [] 0 none none).2.2.2 rfl⟩⟩

/-- Claim C2 counterexample: after a successful login, a malformed frame does
not leave the read loop running on the same connection. A later decodable
frame is never delivered, the parse failure is logged, and the listener
enters the backoff-and-retry (reconnect) path even though no explicit
protocol error object was signalled. -/
theorem BitmartUserStream.c2_counterexample_invalid_frame_reconnects :
    (BitmartUserStream.runAttempt
      { connect := BitmartUserStream.StepResult.ok,
        authSend := BitmartUserStream.StepResult.ok,
        authResponse := BitmartUserStream.AuthResponse.loginOk,
        subscribeSend := BitmartUserStream.StepResult.ok,
        recvs := [BitmartUserStream.RecvEvent.frame
                    (BitmartUserStream.Frame.invalid "invalid message"),
                  BitmartUserStream.RecvEvent.frame
                    (BitmartUserStream.Frame.valid "dummyMessage")] }).outcome
      = BitmartUserStream.AttemptOutcome.backoffRetry ∧
    "dummyMessage" ∉ (BitmartUserStream.runAttempt
      { connect := BitmartUserStream.StepResult.ok,
        authSend := BitmartUserStream.StepResult.ok,
        authResponse := BitmartUserStream.AuthResponse.loginOk,
        subscribeSend := BitmartUserStream.StepResult.ok,
        recvs := [BitmartUserStream.RecvEvent.frame
                    (BitmartUserStream.Frame.invalid "invalid message"),
                  BitmartUserStream.RecvEvent.frame
                    (BitmartUserStream.Frame.valid "dummyMessage")] }).outputs ∧
    BitmartUserStream.parseErrorLog ∈ (BitmartUserStream.runAttempt
      { connect := BitmartUserStream.StepResult.ok,
        authSend := BitmartUserStream.StepResult.ok,
        authResponse := BitmartUserStream.AuthResponse.loginOk,
        subscribeSend := BitmartUserStream.StepResult.ok,
        recvs := [BitmartUserStream.RecvEvent.frame
                    (BitmartUserStream.Frame.invalid "invalid message"),
                  BitmartUserStream.RecvEvent.frame
                    (BitmartUserStream.Frame.valid "dummyMessage")] }).logs := by
  decide

/-- Claim C2 (amended): a malformed frame received after a successful login
is logged as a parse failure and is connection-fatal: no matter how many
decoded frames and answered pings preceded it, the listener logs the parse
error, tears the connection down and enters the backoff-and-retry path. -/
theorem BitmartUserStream.c2_malformed_frame_is_connection_fatal
    (s : BitmartUserStream.AttemptScript)
    (pre rest : List BitmartUserStream.RecvEvent) (raw : String)
    (hc : s.connect = BitmartUserStream.StepResult.ok)
    (ha : s.authSend = BitmartUserStream.StepResult.ok)
    (hr : s.authResponse = BitmartUserStream.AuthResponse.loginOk)
    (hs : s.subscribeSend = BitmartUserStream.StepResult.ok)
    (hrecv : s.recvs = pre ++
      BitmartUserStream.RecvEvent.frame (BitmartUserStream.Frame.invalid raw) :: rest)
    (hpre : ∀ e ∈ pre, BitmartUserStream.heartbeatBenign e = true) :
    BitmartUserStream.parseErrorLog ∈ (BitmartUserStream.runAttempt s).logs ∧
    BitmartUserStream.retryLog ∈ (BitmartUserStream.runAttempt s).logs ∧
    (BitmartUserStream.runAttempt s).outcome
      = BitmartUserStream.AttemptOutcome.backoffRetry := by
  obtain ⟨h1, h2, h3, h4⟩ := BitmartUserStream.innerLoop_benign_append pre
    (BitmartUserStream.RecvEvent.frame (BitmartUserStream.Frame.invalid raw) :: rest) hpre
  have hexit : (BitmartUserStream.innerLoop s.recvs).exit
      = BitmartUserStream.LoopExit.parseError := by
    rw [hrecv, h1]
    rfl
  have hlogs : (BitmartUserStream.innerLoop s.recvs).logs
      = [BitmartUserStream.parseErrorLog] := by
    rw [hrecv, h3]
    rfl
  simp [BitmartUserStream.runAttempt, hc, ha, hr, hs, hexit, hlogs]

/-- Witness for the amended claim C2 at a concrete input. -/
theorem BitmartUserStream.c2_malformed_frame_is_connection_fatal_witness :
    (∀ e ∈ ([] : List BitmartUserStream.RecvEvent),
      BitmartUserStream.heartbeatBenign e = true) ∧
    (BitmartUserStream.parseErrorLog ∈ (BitmartUserStream.runAttempt
      { connect := BitmartUserStream.StepResult.ok,
        authSend := BitmartUserStream.StepResult.ok,
        authResponse := BitmartUserStream.AuthResponse.loginOk,
        subscribeSend := BitmartUserStream.StepResult.ok,
        recvs := [BitmartUserStream.RecvEvent.frame
          (BitmartUserStream.Frame.invalid "invalid message")] }).logs ∧
     BitmartUserStream.retryLog ∈ (BitmartUserStream.runAttempt
      { connect := BitmartUserStream.StepResult.ok,
        authSend := BitmartUserStream.StepResult.ok,
        authResponse := BitmartUserStream.AuthResponse.loginOk,
        subscribeSend := BitmartUserStream.StepResult.ok,
        recvs := [BitmartUserStream.RecvEvent.frame
          (BitmartUserStream.Frame.invalid "invalid message")] }).logs ∧
     (BitmartUserStream.runAttempt
      { connect := BitmartUserStream.StepResult.ok,
        authSend := BitmartUserStream.StepResult.ok,
        authResponse := BitmartUserStream.AuthResponse.loginOk,
        subscribeSend := BitmartUserStream.StepResult.ok,
        recvs := [BitmartUserStream.RecvEvent.frame
          (BitmartUserStream.Frame.invalid "invalid message")] }).outcome
       = BitmartUserStream.AttemptOutcome.backoffRetry) :=
  ⟨by decide,
   BitmartUserStream.c2_malformed_frame_is_connection_fatal
    { connect := BitmartUserStream.StepResult.ok,
      authSend := BitmartUserStream.StepResult.ok,
      authResponse := BitmartUserStream.AuthResponse.loginOk,
      subscribeSend := BitmartUserStream.StepResult.ok,
      recvs := [BitmartUserStream.RecvEvent.frame
        (BitmartUserStream.Frame.invalid "invalid message")] }
    [] [] "invalid message" rfl rfl rfl rfl rfl (by decide)⟩

/-- Claim C4: two-tier heartbeat. Over any run of decoded frames and message
timeouts whose pings are answered, the read loop sends exactly one ping per
message timeout and never closes the connection; when a ping is not answered
within the ping timeout, the loop closes the connection, logs the ping
timeout warning, and the listener reconnects. -/
theorem BitmartUserStream.c4_two_tier_heartbeat
    (pre : List BitmartUserStream.RecvEvent)
    (h : ∀ e ∈ pre, BitmartUserStream.heartbeatBenign e = true) :
    ((BitmartUserStream.innerLoop pre).closed = false ∧
     (BitmartUserStream.innerLoop pre).exit = BitmartUserStream.LoopExit.running ∧
     (BitmartUserStream.innerLoop pre).pings = pre.countP BitmartUserStream.isPong) ∧
    ((BitmartUserStream.innerLoop
        (pre ++ [BitmartUserStream.RecvEvent.timeoutPingTimeout])).closed = true ∧
     (BitmartUserStream.innerLoop
        (pre ++ [BitmartUserStream.RecvEvent.timeoutPingTimeout])).exit
       = BitmartUserStream.LoopExit.pingTimeout ∧
     BitmartUserStream.pingTimeoutLog ∈ (BitmartUserStream.innerLoop
        (pre ++ [BitmartUserStream.RecvEvent.timeoutPingTimeout])).logs ∧
     (BitmartUserStream.innerLoop
        (pre ++ [BitmartUserStream.RecvEvent.timeoutPingTimeout])).pings
       = pre.countP BitmartUserStream.isPong + 1) ∧
    (BitmartUserStream.runAttempt
      { connect := BitmartUserStream.StepResult.ok,
        authSend := BitmartUserStream.StepResult.ok,
        authResponse := BitmartUserStream.AuthResponse.loginOk,
        subscribeSend := BitmartUserStream.StepResult.ok,
        recvs := pre ++ [BitmartUserStream.RecvEvent.timeoutPingTimeout] }).outcome
      = BitmartUserStream.AttemptOutcome.reconnect := by
  obtain ⟨e1, c1, l1, p1⟩ := BitmartUserStream.innerLoop_benign_append pre [] h
  obtain ⟨e2, c2, l2, p2⟩ := BitmartUserStream.innerLoop_benign_append pre
    [BitmartUserStream.RecvEvent.timeoutPingTimeout] h
  rw [List.append_nil] at e1 c1 p1
  have hexit2 : (BitmartUserStream.innerLoop
      (pre ++ [BitmartUserStream.RecvEvent.timeoutPingTimeout])).exit
      = BitmartUserStream.LoopExit.pingTimeout := by
    rw [e2]
    rfl
  refine ⟨⟨?_, ?_, ?_⟩, ⟨?_, hexit2, ?_, ?_⟩, ?_⟩
  · rw [c1]
    rfl
  · rw [e1]
    rfl
  · rw [p1]
    rfl
  · rw [c2]
    rfl
  · rw [l2]
    simp [BitmartUserStream.innerLoop]
  · rw [p2]
    rfl
  · simp [BitmartUserStream.runAttempt, hexit2]

/-- Witness for claim C4 at a concrete input. -/
theorem BitmartUserStream.c4_two_tier_heartbeat_witness :
    (∀ e ∈ [BitmartUserStream.RecvEvent.timeoutPongOk,
            BitmartUserStream.RecvEvent.frame
              (BitmartUserStream.Frame.valid "dummyMessage")],
      BitmartUserStream.heartbeatBenign e = true) ∧
    (((BitmartUserStream.innerLoop
        [BitmartUserStream.RecvEvent.timeoutPongOk,
         BitmartUserStream.RecvEvent.frame
           (BitmartUserStream.Frame.valid "dummyMessage")]).closed = false ∧
      (BitmartUserStream.innerLoop
        [BitmartUserStream.RecvEvent.timeoutPongOk,
         BitmartUserStream.RecvEvent.frame
           (BitmartUserStream.Frame.valid "dummyMessage")]).exit
        = BitmartUserStream.LoopExit.running ∧
      (BitmartUserStream.innerLoop
        [BitmartUserStream.RecvEvent.timeoutPongOk,
         BitmartUserStream.RecvEvent.frame
           (BitmartUserStream.Frame.valid "dummyMessage")]).pings
        = [BitmartUserStream.RecvEvent.timeoutPongOk,
           BitmartUserStream.RecvEvent.frame
             (BitmartUserStream.Frame.valid "dummyMessage")].countP
            BitmartUserStream.isPong) ∧
     ((BitmartUserStream.innerLoop
        ([BitmartUserStream.RecvEvent.timeoutPongOk,
          BitmartUserStream.RecvEvent.frame
            (BitmartUserStream.Frame.valid "dummyMessage")] ++
         [BitmartUserStream.RecvEvent.timeoutPingTimeout])).closed = true ∧
      (BitmartUserStream.innerLoop
        ([BitmartUserStream.RecvEvent.timeoutPongOk,
          BitmartUserStream.RecvEvent.frame
            (BitmartUserStream.Frame.valid "dummyMessage")] ++
         [BitmartUserStream.RecvEvent.timeoutPingTimeout])).exit
        = BitmartUserStream.LoopExit.pingTimeout ∧
      BitmartUserStream.pingTimeoutLog ∈ (BitmartUserStream.innerLoop
        ([BitmartUserStream.RecvEvent.timeoutPongOk,
          BitmartUserStream.RecvEvent.frame
            (BitmartUserStream.Frame.valid "dummyMessage")] ++
         [BitmartUserStream.RecvEvent.timeoutPingTimeout])).logs ∧
      (BitmartUserStream.innerLoop
        ([BitmartUserStream.RecvEvent.timeoutPongOk,
          BitmartUserStream.RecvEvent.frame
            (BitmartUserStream.Frame.valid "dummyMessage")] ++
         [BitmartUserStream.RecvEvent.timeoutPingTimeout])).pings
        = [BitmartUserStream.RecvEvent.timeoutPongOk,
           BitmartUserStream.RecvEvent.frame
             (BitmartUserStream.Frame.valid "dummyMessage")].countP
            BitmartUserStream.isPong + 1) ∧
     (BitmartUserStream.runAttempt
       { connect := BitmartUserStream.StepResult.ok,
         authSend := BitmartUserStream.StepResult.ok,
         authResponse := BitmartUserStream.AuthResponse.loginOk,
         subscribeSend := BitmartUserStream.StepResult.ok,
         recvs := [BitmartUserStream.RecvEvent.timeoutPongOk,
                   BitmartUserStream.RecvEvent.frame
                     (BitmartUserStream.Frame.valid "dummyMessage")] ++
                  [BitmartUserStream.RecvEvent.timeoutPingTimeout] }).outcome
       = BitmartUserStream.AttemptOutcome.reconnect) :=
  ⟨by decide,
   BitmartUserStream.c4_two_tier_heartbeat
    [BitmartUserStream.RecvEvent.timeoutPongOk,
     BitmartUserStream.RecvEvent.frame (BitmartUserStream.Frame.valid "dummyMessage")]
    (by decide)⟩

/-- Claim C5: when the exchange explicitly rejects authentication, the
listener never sends the channel-subscribe request; it logs the login error
and the authentication error and goes to teardown and retry after the
backoff. -/
theorem BitmartUserStream.c5_auth_rejection_skips_subscribe
    (s : BitmartUserStream.AttemptScript) (c m : String)
    (hc : s.connect = BitmartUserStream.StepResult.ok)
    (ha : s.authSend = BitmartUserStream.StepResult.ok)
    (hr : s.authResponse = BitmartUserStream.AuthResponse.errorObject c m) :
    BitmartUserStream.subscribePayloadFrame ∉
      (BitmartUserStream.runAttempt s).sentFrames ∧
    BitmartUserStream.loginErrorLog m ∈ (BitmartUserStream.runAttempt s).logs ∧
    BitmartUserStream.authErrorLog ∈ (BitmartUserStream.runAttempt s).logs ∧
    BitmartUserStream.retryLog ∈ (BitmartUserStream.runAttempt s).logs ∧
    (BitmartUserStream.runAttempt s).outcome
      = BitmartUserStream.AttemptOutcome.backoffRetry := by
  simp [BitmartUserStream.runAttempt, hc, ha, hr,
    BitmartUserStream.subscribePayloadFrame, BitmartUserStream.authPayloadFrame,
    BitmartUserStream.loginErrorLog, BitmartUserStream.authStartLog,
    BitmartUserStream.authErrorLog, BitmartUserStream.retryLog]

/-- Witness for claim C5 at a concrete input. -/
theorem BitmartUserStream.c5_auth_rejection_skips_subscribe_witness :
    BitmartUserStream.subscribePayloadFrame ∉
      (BitmartUserStream.runAttempt
        { connect := BitmartUserStream.StepResult.ok,
          authSend := BitmartUserStream.StepResult.ok,
          authResponse := BitmartUserStream.AuthResponse.errorObject
            "test code" "test err message",
          subscribeSend := BitmartUserStream.StepResult.ok,
          recvs := [] }).sentFrames ∧
    BitmartUserStream.loginErrorLog "test err message" ∈
      (BitmartUserStream.runAttempt
        { connect := BitmartUserStream.StepResult.ok,
          authSend := BitmartUserStream.StepResult.ok,
          authResponse := BitmartUserStream.AuthResponse.errorObject
            "test code" "test err message",
          subscribeSend := BitmartUserStream.StepResult.ok,
          recvs := [] }).logs ∧
    BitmartUserStream.authErrorLog ∈
      (BitmartUserStream.runAttempt
        { connect := BitmartUserStream.StepResult.ok,
          authSend := BitmartUserStream.StepResult.ok,
          authResponse := BitmartUserStream.AuthResponse.errorObject
            "test code" "test err message",
          subscribeSend := BitmartUserStream.StepResult.ok,
          recvs := [] }).logs ∧
    BitmartUserStream.retryLog ∈
      (BitmartUserStream.runAttempt
        { connect := BitmartUserStream.StepResult.ok,
          authSend := BitmartUserStream.StepResult.ok,
          authResponse := BitmartUserStream.AuthResponse.errorObject
            "test code" "test err message",
          subscribeSend := BitmartUserStream.StepResult.ok,
          recvs := [] }).logs ∧
    (BitmartUserStream.runAttempt
        { connect := BitmartUserStream.StepResult.ok,
          authSend := BitmartUserStream.StepResult.ok,
          authResponse := BitmartUserStream.AuthResponse.errorObject
            "test code" "test err message",
          subscribeSend := BitmartUserStream.StepResult.ok,
          recvs := [] }).outcome
      = BitmartUserStream.AttemptOutcome.backoffRetry :=
  BitmartUserStream.c5_auth_rejection_skips_subscribe
    { connect := BitmartUserStream.StepResult.ok,
      authSend := BitmartUserStream.StepResult.ok,
      authResponse := BitmartUserStream.AuthResponse.errorObject
        "test code" "test err message",
      subscribeSend := BitmartUserStream.StepResult.ok,
      recvs := [] }
    "test code" "test err message" rfl rfl rfl

/-- Claim C6: cancellation at any of the connection-open, auth-send or
subscribe-send suspension points propagates to the caller as the distinct
cancelled outcome and does not enter the backoff-and-retry path. -/
theorem BitmartUserStream.c6_cancellation_propagates_without_retry
    (s : BitmartUserStream.AttemptScript)
    (h : BitmartUserStream.cancelAtConnect s ∨ BitmartUserStream.cancelAtAuthSend s ∨
      BitmartUserStream.cancelAtSubscribeSend s) :
    (BitmartUserStream.runAttempt s).outcome
      = BitmartUserStream.AttemptOutcome.cancelled ∧
    (BitmartUserStream.runAttempt s).outcome
      ≠ BitmartUserStream.AttemptOutcome.backoffRetry := by
  have hout : (BitmartUserStream.runAttempt s).outcome
      = BitmartUserStream.AttemptOutcome.cancelled := by
    rcases h with h1 | ⟨h1, h2⟩ | ⟨h1, h2, h3, h4⟩
    · unfold BitmartUserStream.cancelAtConnect at h1
      simp [BitmartUserStream.runAttempt, h1]
    · simp [BitmartUserStream.runAttempt, h1, h2]
    · simp [BitmartUserStream.runAttempt, h1, h2, h3, h4]
  refine ⟨hout, ?_⟩
  rw [hout]
  decide

/-- Witness for claim C6 at a concrete input. -/
theorem BitmartUserStream.c6_cancellation_propagates_without_retry_witness :
    (BitmartUserStream.cancelAtConnect
      { connect := BitmartUserStream.StepResult.cancelled,
        authSend := BitmartUserStream.StepResult.ok,
        authResponse := BitmartUserStream.AuthResponse.loginOk,
        subscribeSend := BitmartUserStream.StepResult.ok,
        recvs := [] } ∨
     BitmartUserStream.cancelAtAuthSend
      { connect := BitmartUserStream.StepResult.cancelled,
        authSend := BitmartUserStream.StepResult.ok,
        authResponse := BitmartUserStream.AuthResponse.loginOk,
        subscribeSend := BitmartUserStream.StepResult.ok,
        recvs := [] } ∨
     BitmartUserStream.cancelAtSubscribeSend
      { connect := BitmartUserStream.StepResult.cancelled,
        authSend := BitmartUserStream.StepResult.ok,
        authResponse := BitmartUserStream.AuthResponse.loginOk,
        subscribeSend := BitmartUserStream.StepResult.ok,
        recvs := [] }) ∧
    ((BitmartUserStream.runAttempt
      { connect := BitmartUserStream.StepResult.cancelled,
        authSend := BitmartUserStream.StepResult.ok,
        authResponse := BitmartUserStream.AuthResponse.loginOk,
        subscribeSend := BitmartUserStream.StepResult.ok,
        recvs := [] }).outcome = BitmartUserStream.AttemptOutcome.cancelled ∧
     (BitmartUserStream.runAttempt
      { connect := BitmartUserStream.StepResult.cancelled,
        authSend := BitmartUserStream.StepResult.ok,
        authResponse := BitmartUserStream.AuthResponse.loginOk,
        subscribeSend := BitmartUserStream.StepResult.ok,
        recvs := [] }).outcome ≠ BitmartUserStream.AttemptOutcome.backoffRetry) :=
  ⟨Or.inl rfl,
   BitmartUserStream.c6_cancellation_propagates_without_retry
    { connect := BitmartUserStream.StepResult.cancelled,
      authSend := BitmartUserStream.StepResult.ok,
      authResponse := BitmartUserStream.AuthResponse.loginOk,
      subscribeSend := BitmartUserStream.StepResult.ok,
      recvs := [] }
    (Or.inl rfl)⟩
